import Mathlib

/-!
Verification of the MediaBot repository: shallow embedding of the
operations in `media_utils.py`, `video_utils.py`, `long_video.py` and
`bot.py`, with theorems settling the specification claims about them.

Machine integers play no role here (counts are small naturals); file
systems are modelled as lists of names, directories as association
lists, and every fallible Python operation returns an `Option` or an
explicit result constructor.
-/

namespace MediaBot

/-! ### Output directory lookup: `media_utils.get_latest_video`

The source (media_utils.py lines 117-143) collects `*.mp4` files from a
date subdirectory of the output root and from the root itself, and
returns the most recently modified one, or `None` when there are no
matches.  A directory entry is a name plus an mtime; the output root is
an association list of subdirectories plus a flat file list. -/

structure OutFile where
  name : String
  mtime : Nat
deriving DecidableEq, Repr

structure OutputDir where
  subdirs : List (String × List OutFile)
  rootFiles : List OutFile
deriving Repr

/-- Location of a found file: the flat root or a named subdirectory. -/
inductive Loc where
  | root
  | sub (d : String)
deriving DecidableEq, Repr

/-- Suffix test on strings, via their character lists. -/
def strEndsWith (s t : String) : Bool := t.data.isSuffixOf s.data

/-- Glob `*.mp4` from the source. -/
def isMp4 (f : OutFile) : Bool := strEndsWith f.name ".mp4"

/-- The date string the source assigns to the variable `today`
(media_utils.py line 123): it is the string literal "2025-08-12",
not a value derived from the clock. -/
def today : String := "2025-08-12"

/-- Python `max(video_files, key=lambda x: x.stat().st_mtime)`: the first
element of maximal mtime (Python `max` keeps the earliest maximum). -/
def pickLatest (fs : List (Loc × OutFile)) : Option (Loc × OutFile) :=
  fs.foldl (fun acc x =>
    match acc with
    | none => some x
    | some a => if x.2.mtime > a.2.mtime then some x else some a) none

/-- Directory lookup by name in the subdirectory list. -/
def dirLookup (s : String) : List (String × List OutFile) → Option (List OutFile)
  | [] => none
  | (k, v) :: t => if k = s then some v else dirLookup s t

/-- Embedding of `get_latest_video(output_dir)` (media_utils.py 117-143):
files of the `today` subdirectory (when that subdirectory exists) are
collected first, then the files of the flat root; the most recently
modified `.mp4` among them is returned, `none` when there is none. -/
def get_latest_video (d : OutputDir) : Option (Loc × OutFile) :=
  let dateFiles : List (Loc × OutFile) :=
    match dirLookup today d.subdirs with
    | some fs => (fs.filter isMp4).map (fun f => (Loc.sub today, f))
    | none => []
  let rootVids : List (Loc × OutFile) :=
    (d.rootFiles.filter isMp4).map (fun f => (Loc.root, f))
  pickLatest (dateFiles ++ rootVids)

/-! ### Polling loop: `media_utils.wait_for_generation`

The source (media_utils.py lines 94-115) loops forever: it first raises
`TimeoutError` when the elapsed time exceeds the timeout, then issues
`requests.get` against the history endpoint, returns `True` when the
response has status 200 and contains the prompt id, and otherwise sleeps
3 seconds and retries.  The `requests.get` call is not wrapped in any
try/except, so an exception raised by it propagates out of the loop.

The k-th poll happens at elapsed time `3 * k` (each earlier iteration
slept 3 seconds); the response sequence is an oracle `polls`. -/

/-- Outcome of one `requests.get` against the history endpoint:
either the call raised (transport failure), or it produced an HTTP
response with a status code and a flag for whether the prompt id is a
key of the returned history object. -/
inductive PollResp where
  | exn
  | resp (status : Nat) (hasId : Bool)
deriving DecidableEq, Repr

/-- Result of the polling loop. `stuck` is the fuel-exhaustion marker and
is unreachable from `wait_for_generation`, whose fuel exceeds the number
of iterations any run can perform. -/
inductive WaitResult where
  | completed (iter : Nat)
  | timedOut
  | raised (iter : Nat)
  | stuck
deriving DecidableEq, Repr

/-- One poll that neither succeeds nor raises: an HTTP response that is
not a 200 carrying the prompt id.  These are the polls the loop retries. -/
def continues (r : PollResp) : Prop :=
  ∃ s h, r = PollResp.resp s h ∧ ¬(s = 200 ∧ h = true)

instance (r : PollResp) : Decidable (continues r) := by
  cases r with
  | exn => exact isFalse (by rintro ⟨s, h, hx, -⟩; cases hx)
  | resp s h =>
    by_cases hs : s = 200 ∧ h = true
    · exact isFalse (by rintro ⟨s', h', he, hn⟩; cases he; exact hn hs)
    · exact isTrue ⟨s, h, rfl, hs⟩

/-- The `while True` body of `wait_for_generation`, fuelled.  `k` is the
iteration index, so the elapsed time at the top of the body is `3 * k`. -/
def pollLoop (polls : Nat → PollResp) (timeout : Nat) : Nat → Nat → WaitResult
  | fuel, k =>
    if 3 * k > timeout then WaitResult.timedOut
    else
      match fuel with
      | 0 => WaitResult.stuck
      | fuel + 1 =>
        match polls k with
        | PollResp.exn => WaitResult.raised k
        | PollResp.resp status hasId =>
          if status = 200 ∧ hasId = true then WaitResult.completed k
          else pollLoop polls timeout fuel (k + 1)

/-- Embedding of `wait_for_generation(prompt_id, comfyui_url, timeout)`:
the fuel `timeout + 2` strictly exceeds the greatest possible number of
iterations, which is bounded by `timeout / 3 + 1`. -/
def wait_for_generation (polls : Nat → PollResp) (timeout : Nat) : WaitResult :=
  pollLoop polls timeout (timeout + 2) 0

theorem pollLoop_timedOut (polls : Nat → PollResp) (timeout : Nat) :
    ∀ fuel k, (∀ j, 3 * j ≤ timeout → continues (polls j)) →
      timeout < 3 * (k + fuel) →
      pollLoop polls timeout fuel k = WaitResult.timedOut := by
  intro fuel
  induction fuel with
  | zero =>
    intro k _ hlt
    unfold pollLoop
    have h3 : 3 * k > timeout := by omega
    simp [h3]
  | succ fuel ih =>
    intro k hcont hlt
    unfold pollLoop
    by_cases h3 : 3 * k > timeout
    · simp [h3]
    · obtain ⟨s, hh, he, hn⟩ := hcont k (by omega)
      simp only [h3, if_false]
      rw [he]
      simp only [hn, if_false]
      exact ih (k + 1) hcont (by omega)

theorem pollLoop_found (polls : Nat → PollResp) (timeout k : Nat) :
    ∀ fuel k₀, k₀ ≤ k → (∀ j, k₀ ≤ j → j < k → continues (polls j)) →
      3 * k ≤ timeout → polls k = PollResp.resp 200 true → k < k₀ + fuel →
      pollLoop polls timeout fuel k₀ = WaitResult.completed k := by
  intro fuel
  induction fuel with
  | zero => intro k₀ hle _ _ _ hfuel; omega
  | succ fuel ih =>
    intro k₀ hle hcont h3 hk hfuel
    unfold pollLoop
    have h3' : ¬ 3 * k₀ > timeout := by omega
    simp only [h3', if_false]
    rcases eq_or_lt_of_le hle with heq | hlt
    · subst heq
      rw [hk]
      simp
    · obtain ⟨s, hh, he, hn⟩ := hcont k₀ le_rfl hlt
      rw [he]
      simp only [hn, if_false]
      exact ih (k₀ + 1) hlt (fun j hj hj2 => hcont j (by omega) hj2) h3 hk (by omega)

theorem pollLoop_raised (polls : Nat → PollResp) (timeout k : Nat) :
    ∀ fuel k₀, k₀ ≤ k → (∀ j, k₀ ≤ j → j < k → continues (polls j)) →
      3 * k ≤ timeout → polls k = PollResp.exn → k < k₀ + fuel →
      pollLoop polls timeout fuel k₀ = WaitResult.raised k := by
  intro fuel
  induction fuel with
  | zero => intro k₀ hle _ _ _ hfuel; omega
  | succ fuel ih =>
    intro k₀ hle hcont h3 hk hfuel
    unfold pollLoop
    have h3' : ¬ 3 * k₀ > timeout := by omega
    simp only [h3', if_false]
    rcases eq_or_lt_of_le hle with heq | hlt
    · subst heq
      rw [hk]
    · obtain ⟨s, hh, he, hn⟩ := hcont k₀ le_rfl hlt
      rw [he]
      simp only [hn, if_false]
      exact ih (k₀ + 1) hlt (fun j hj hj2 => hcont j (by omega) hj2) h3 hk (by omega)

/-- C4 (counterexample): a poll sequence whose first poll raises a
transport exception, with ample remaining timeout, makes the loop abort
with that exception at iteration 0 instead of retrying; in particular the
overall timeout is not the only terminal failure of the loop, contrary to
the claim. -/
theorem wait_for_generation_transport_error_aborts :
    wait_for_generation (fun _ => PollResp.exn) 10 = WaitResult.raised 0 ∧
    WaitResult.raised 0 ≠ WaitResult.timedOut := by
  constructor
  · rfl
  · decide

/-- C4 (amended): the loop polls at elapsed times 3k (fixed 3-second
interval); any poll answered by an HTTP response that is not a 200
containing the job id is retried; `TimeoutError` is raised when the
timeout elapses with every poll so answered; but a poll whose request
raises a transport exception propagates it, aborting the loop at that
iteration. -/
theorem wait_for_generation_spec (polls : Nat → PollResp) (timeout : Nat) :
    ((∀ j, 3 * j ≤ timeout → continues (polls j)) →
      wait_for_generation polls timeout = WaitResult.timedOut) ∧
    (∀ k, (∀ j, j < k → continues (polls j)) → 3 * k ≤ timeout →
      polls k = PollResp.resp 200 true →
      wait_for_generation polls timeout = WaitResult.completed k) ∧
    (∀ k, (∀ j, j < k → continues (polls j)) → 3 * k ≤ timeout →
      polls k = PollResp.exn →
      wait_for_generation polls timeout = WaitResult.raised k) := by
  refine ⟨fun hcont => ?_, fun k hcont h3 hk => ?_, fun k hcont h3 hk => ?_⟩
  · exact pollLoop_timedOut polls timeout (timeout + 2) 0 hcont (by omega)
  · exact pollLoop_found polls timeout k (timeout + 2) 0 (Nat.zero_le k)
      (fun j _ hj => hcont j hj) h3 hk (by omega)
  · exact pollLoop_raised polls timeout k (timeout + 2) 0 (Nat.zero_le k)
      (fun j _ hj => hcont j hj) h3 hk (by omega)

/-- C4 (witness): the three parts of `wait_for_generation_spec`
instantiated on concrete poll sequences. -/
theorem wait_for_generation_spec_witness :
    wait_for_generation (fun _ => PollResp.resp 500 false) 10 = WaitResult.timedOut ∧
    wait_for_generation (fun k => if k < 2 then PollResp.resp 500 false
      else PollResp.resp 200 true) 10 = WaitResult.completed 2 ∧
    wait_for_generation (fun k => if k = 0 then PollResp.resp 200 false
      else PollResp.exn) 9 = WaitResult.raised 1 := by
  refine ⟨?_, ?_, ?_⟩
  · exact (wait_for_generation_spec (fun _ => PollResp.resp 500 false) 10).1
      (fun j _ => ⟨500, false, rfl, by decide⟩)
  · refine (wait_for_generation_spec _ 10).2.1 2 (fun j hj => ?_) (by norm_num) (by simp)
    exact ⟨500, false, by simp [hj], by decide⟩
  · refine (wait_for_generation_spec _ 9).2.2 1 (fun j hj => ?_) (by norm_num) (by simp)
    have hj0 : j = 0 := by omega
    exact ⟨200, false, by simp [hj0], by decide⟩

/-- C5 (code divergence): `get_latest_video` consults the fixed
subdirectory "2025-08-12" rather than one named for the current date.
With the current date 2025-10-12 and the only output video sitting in
the "2025-10-12" subdirectory, the function returns `none`; the very
same tree under the name "2025-08-12" makes it return the file. -/
theorem get_latest_video_hardcoded_date :
    get_latest_video ⟨[("2025-10-12", [⟨"v.mp4", 5⟩])], []⟩ = none ∧
    get_latest_video ⟨[("2025-08-12", [⟨"v.mp4", 5⟩])], []⟩ =
      some (Loc.sub today, ⟨"v.mp4", 5⟩) := by
  constructor
  · rfl
  · rfl

/-! ### Template materialization: `media_utils.update_workflow_params`
and `img2vid.replace_in_dict`

The workflow template is a JSON tree of strings, integers, objects and
arrays.  `update_workflow_params` (media_utils.py 58-79) walks it: for
each object entry it replaces the entry value when it equals one of the
sentinel values (the fixed prompt string; 720/1280 as int or string,
replaced only under a key whose lowercase form ends in "width" or
"height"; 101 as int or string; the fixed source-image file name), and
otherwise recurses into the value; for an array it recurses into each
element.  An array element that is itself a sentinel scalar is only
passed to the recursive call, which does nothing to scalars. -/

mutual
inductive WVal where
  | str (s : String)
  | int (n : Int)
  | obj (fields : WFields)
  | arr (items : WItems)
deriving DecidableEq
inductive WFields where
  | nil
  | cons (key : String) (val : WVal) (rest : WFields)
deriving DecidableEq
inductive WItems where
  | nil
  | cons (head : WVal) (tail : WItems)
deriving DecidableEq
end

/-- The parameters `update_workflow_params` closes over: the user's
prompt, the target dimensions picked from the image orientation, the
frame count, and `os.path.basename(image_path)`. -/
structure WParams where
  prompt : String
  target_width : Int
  target_height : Int
  n_frames : Int
  imageName : String
deriving DecidableEq

/-- The sentinel prompt of the template (media_utils.py line 61). -/
def promptSentinel : String :=
  "a video of a beautiful blondie woman doing gymnastics on the floor"

/-- The sentinel source-image file name (media_utils.py line 71). -/
def imageSentinel : String := "combined_opencv_last_frame.png"

/-- Python `value == s` for a string literal `s`: true only on equal
strings. -/
def isStrEq (v : WVal) (s : String) : Bool :=
  match v with
  | WVal.str t => t = s
  | _ => false

/-- Python `value in [720, "720", 1280, "1280"]`. -/
def isDimSentinel (v : WVal) : Bool :=
  match v with
  | WVal.int n => n = 720 || n = 1280
  | WVal.str s => s = "720" || s = "1280"
  | _ => false

/-- Python `value in [101, "101"]`. -/
def isFrameSentinel (v : WVal) : Bool :=
  match v with
  | WVal.int n => n = 101
  | WVal.str s => s = "101"
  | _ => false

/-- Python `key.lower().endswith(suf)`. -/
def lowerEnds (k suf : String) : Bool :=
  suf.data.isSuffixOf (k.data.map Char.toLower)

/-- The sentinel test-and-replace applied to one object entry, in the
elif order of the source; `none` means the entry value matched no
sentinel and the source recurses into it instead. -/
def sentinelSubst (p : WParams) (k : String) (v : WVal) : Option WVal :=
  if isStrEq v promptSentinel then some (WVal.str p.prompt)
  else if isDimSentinel v then
    some (if lowerEnds k "width" then WVal.int p.target_width
          else if lowerEnds k "height" then WVal.int p.target_height
          else v)
  else if isFrameSentinel v then some (WVal.int p.n_frames)
  else if isStrEq v imageSentinel then some (WVal.str p.imageName)
  else none

mutual
def updateVal (p : WParams) : WVal → WVal
  | WVal.str s => WVal.str s
  | WVal.int n => WVal.int n
  | WVal.obj fs => WVal.obj (updateFields p fs)
  | WVal.arr its => WVal.arr (updateItems p its)
def updateFields (p : WParams) : WFields → WFields
  | WFields.nil => WFields.nil
  | WFields.cons k v rest =>
    WFields.cons k
      (match sentinelSubst p k v with
       | some w => w
       | none => updateVal p v)
      (updateFields p rest)
def updateItems (p : WParams) : WItems → WItems
  | WItems.nil => WItems.nil
  | WItems.cons h t => WItems.cons (updateVal p h) (updateItems p t)
end

/-- Embedding of `update_workflow_params(workflow)` applied to the whole
template. -/
def update_workflow_params (p : WParams) (w : WVal) : WVal := updateVal p w

/-- What one object entry becomes under the walk. -/
def entryOnce (p : WParams) (k : String) (v : WVal) : WVal :=
  match sentinelSubst p k v with
  | some w => w
  | none => updateVal p v

theorem updateFields_cons (p : WParams) (k : String) (v : WVal) (rest : WFields) :
    updateFields p (WFields.cons k v rest) =
      WFields.cons k (entryOnce p k v) (updateFields p rest) := rfl

/-! Occurrence of a given string anywhere in the tree. -/
mutual
def occursVal (s : String) : WVal → Bool
  | WVal.str t => t = s
  | WVal.int _ => false
  | WVal.obj fs => occursFields s fs
  | WVal.arr its => occursItems s its
def occursFields (s : String) : WFields → Bool
  | WFields.nil => false
  | WFields.cons _ v rest => occursVal s v || occursFields s rest
def occursItems (s : String) : WItems → Bool
  | WItems.nil => false
  | WItems.cons h t => occursVal s h || occursItems s t
end

/-- Parameter values that do not collide with a sentinel of a different
meaning.  A parameter equal to its own sentinel (for example a prompt
equal to the prompt sentinel) is harmless: the second pass replaces it
with itself. -/
def goodParams (p : WParams) : Prop :=
  p.prompt ≠ "720" ∧ p.prompt ≠ "1280" ∧ p.prompt ≠ "101" ∧ p.prompt ≠ imageSentinel ∧
  p.target_width ≠ 101 ∧ p.target_height ≠ 101 ∧
  p.n_frames ≠ 720 ∧ p.n_frames ≠ 1280 ∧
  p.imageName ≠ promptSentinel ∧ p.imageName ≠ "720" ∧
  p.imageName ≠ "1280" ∧ p.imageName ≠ "101"

instance (p : WParams) : Decidable (goodParams p) := by
  unfold goodParams; infer_instance

theorem entryOnce_of_subst_some {p : WParams} {k : String} {v w : WVal}
    (h : sentinelSubst p k v = some w) : entryOnce p k v = w := by
  unfold entryOnce; rw [h]

theorem entryOnce_of_subst_none {p : WParams} {k : String} {v : WVal}
    (h : sentinelSubst p k v = none) : entryOnce p k v = updateVal p v := by
  unfold entryOnce; rw [h]

theorem entryOnce_subst_stable (p : WParams) (hp : goodParams p) (k : String)
    (v w : WVal) (h : sentinelSubst p k v = some w) : entryOnce p k w = w := by
  obtain ⟨h1, h2, h3, h4, h5, h6, h7, h8, h9, h10, h11, h12⟩ := hp
  rw [sentinelSubst] at h
  by_cases c1 : isStrEq v promptSentinel = true
  · rw [if_pos c1] at h
    injection h with hw; subst hw
    by_cases hpp : p.prompt = promptSentinel
    · exact entryOnce_of_subst_some (by simp [sentinelSubst, isStrEq, hpp])
    · rw [entryOnce_of_subst_none (by
        simp [sentinelSubst, isStrEq, isDimSentinel, isFrameSentinel,
          hpp, h1, h2, h3, h4])]
      simp [updateVal]
  · rw [if_neg c1] at h
    by_cases c2 : isDimSentinel v = true
    · rw [if_pos c2] at h
      injection h with hw
      by_cases kw : lowerEnds k "width" = true
      · rw [if_pos kw] at hw; subst hw
        by_cases htw : p.target_width = 720 ∨ p.target_width = 1280
        · refine entryOnce_of_subst_some ?_
          have hd : isDimSentinel (WVal.int p.target_width) = true := by
            rcases htw with h' | h' <;> simp [isDimSentinel, h']
          simp [sentinelSubst, isStrEq, hd, kw]
        · push_neg at htw
          rw [entryOnce_of_subst_none (by
            simp [sentinelSubst, isStrEq, isDimSentinel, isFrameSentinel,
              htw.1, htw.2, h5])]
          simp [updateVal]
      · rw [if_neg kw] at hw
        by_cases kh : lowerEnds k "height" = true
        · rw [if_pos kh] at hw; subst hw
          by_cases hth : p.target_height = 720 ∨ p.target_height = 1280
          · refine entryOnce_of_subst_some ?_
            have hd : isDimSentinel (WVal.int p.target_height) = true := by
              rcases hth with h' | h' <;> simp [isDimSentinel, h']
            simp [sentinelSubst, isStrEq, hd, kw, kh]
          · push_neg at hth
            rw [entryOnce_of_subst_none (by
              simp [sentinelSubst, isStrEq, isDimSentinel, isFrameSentinel,
                hth.1, hth.2, h6])]
            simp [updateVal]
        · rw [if_neg kh] at hw; subst hw
          refine entryOnce_of_subst_some ?_
          rw [sentinelSubst, if_neg c1, if_pos c2, if_neg kw, if_neg kh]
    · rw [if_neg c2] at h
      by_cases c3 : isFrameSentinel v = true
      · rw [if_pos c3] at h
        injection h with hw; subst hw
        by_cases hnf : p.n_frames = 101
        · exact entryOnce_of_subst_some (by
            simp [sentinelSubst, isStrEq, isDimSentinel, isFrameSentinel,
              h7, h8, hnf])
        · rw [entryOnce_of_subst_none (by
            simp [sentinelSubst, isStrEq, isDimSentinel, isFrameSentinel,
              h7, h8, hnf])]
          simp [updateVal]
      · rw [if_neg c3] at h
        by_cases c4 : isStrEq v imageSentinel = true
        · rw [if_pos c4] at h
          injection h with hw; subst hw
          by_cases hin : p.imageName = imageSentinel
          · exact entryOnce_of_subst_some (by
              simp [sentinelSubst, isStrEq, isDimSentinel, isFrameSentinel, hin,
                (show imageSentinel ≠ promptSentinel by decide),
                (show imageSentinel ≠ "720" by decide),
                (show imageSentinel ≠ "1280" by decide),
                (show imageSentinel ≠ "101" by decide)])
          · rw [entryOnce_of_subst_none (by
              simp [sentinelSubst, isStrEq, isDimSentinel, isFrameSentinel,
                h9, h10, h11, h12, hin])]
            simp [updateVal]
        · rw [if_neg c4] at h
          cases h

theorem sentinelSubst_update_none (p : WParams) (k : String) (v : WVal)
    (h : sentinelSubst p k v = none) :
    sentinelSubst p k (updateVal p v) = none := by
  cases v with
  | str s => simpa [updateVal] using h
  | int n => simpa [updateVal] using h
  | obj fs => simp [updateVal, sentinelSubst, isStrEq, isDimSentinel, isFrameSentinel]
  | arr its => simp [updateVal, sentinelSubst, isStrEq, isDimSentinel, isFrameSentinel]

mutual
theorem updateVal_idem (p : WParams) (hp : goodParams p) :
    ∀ v, updateVal p (updateVal p v) = updateVal p v
  | WVal.str s => by simp [updateVal]
  | WVal.int n => by simp [updateVal]
  | WVal.obj fs => by
    simp only [updateVal]
    rw [updateFields_idem p hp fs]
  | WVal.arr its => by
    simp only [updateVal]
    rw [updateItems_idem p hp its]
theorem updateFields_idem (p : WParams) (hp : goodParams p) :
    ∀ fs, updateFields p (updateFields p fs) = updateFields p fs
  | WFields.nil => rfl
  | WFields.cons k v rest => by
    rw [updateFields_cons, updateFields_cons, updateFields_idem p hp rest]
    congr 1
    cases h : sentinelSubst p k v with
    | some w =>
      have hv : entryOnce p k v = w := by unfold entryOnce; rw [h]
      rw [hv]
      exact entryOnce_subst_stable p hp k v w h
    | none =>
      have hv : entryOnce p k v = updateVal p v := by unfold entryOnce; rw [h]
      rw [hv]
      unfold entryOnce
      rw [sentinelSubst_update_none p k v h]
      exact updateVal_idem p hp v
theorem updateItems_idem (p : WParams) (hp : goodParams p) :
    ∀ its, updateItems p (updateItems p its) = updateItems p its
  | WItems.nil => rfl
  | WItems.cons h t => by
    simp only [updateItems]
    rw [updateVal_idem p hp h, updateItems_idem p hp t]
end

/-! The standalone script `img2vid.py` carries the same traversal as
`replace_in_dict` (lines 27-49): old/new value pairs are passed in, the
numeric sentinels match as the int or its decimal string, and replacement
again happens only on object entry values, arrays being traversed element
by element through the recursive call (which ignores scalars). -/

structure RArgs where
  old_prompt : String
  new_prompt : String
  old_height : Int
  new_height : Int
  old_width : Int
  new_width : Int
  old_frames : Int
  new_frames : Int
  old_image : String
  new_image : String

/-- Python `value == old or value == str(old)` for an int `old`. -/
def matchesIntRepr (v : WVal) (n : Int) : Bool :=
  match v with
  | WVal.int m => m = n
  | WVal.str s => s = toString n
  | _ => false

/-- The elif chain of `replace_in_dict` applied to one entry value. -/
def rSubst (a : RArgs) (v : WVal) : Option WVal :=
  if isStrEq v a.old_prompt then some (WVal.str a.new_prompt)
  else if matchesIntRepr v a.old_height then some (WVal.int a.new_height)
  else if matchesIntRepr v a.old_width then some (WVal.int a.new_width)
  else if matchesIntRepr v a.old_frames then some (WVal.int a.new_frames)
  else if isStrEq v a.old_image then some (WVal.str a.new_image)
  else none

mutual
def replaceVal (a : RArgs) : WVal → WVal
  | WVal.str s => WVal.str s
  | WVal.int n => WVal.int n
  | WVal.obj fs => WVal.obj (replaceFields a fs)
  | WVal.arr its => WVal.arr (replaceItems a its)
def replaceFields (a : RArgs) : WFields → WFields
  | WFields.nil => WFields.nil
  | WFields.cons k v rest =>
    WFields.cons k
      (match rSubst a v with
       | some w => w
       | none => replaceVal a v)
      (replaceFields a rest)
def replaceItems (a : RArgs) : WItems → WItems
  | WItems.nil => WItems.nil
  | WItems.cons h t => WItems.cons (replaceVal a h) (replaceItems a t)
end

/-- Embedding of `img2vid.replace_in_dict`. -/
def replace_in_dict (a : RArgs) (w : WVal) : WVal := replaceVal a w

/-- Concrete parameters used by the C6 evaluations. -/
def pA : WParams :=
  { prompt := "a cat", target_width := 1280, target_height := 720,
    n_frames := 49, imageName := "img.png" }

/-- A template duplicating the prompt sentinel in three nested locations:
as a top-level object entry value, as an entry value of a nested object,
and as a direct element of a nested array. -/
def tA : WVal :=
  WVal.obj (WFields.cons "a" (WVal.str promptSentinel)
    (WFields.cons "b" (WVal.obj (WFields.cons "c" (WVal.str promptSentinel) WFields.nil))
      (WFields.cons "d" (WVal.arr (WItems.cons (WVal.str promptSentinel) WItems.nil))
        WFields.nil)))

/-- What materializing `tA` with `pA` actually produces: the entry-value
occurrences become the new prompt, the array-element occurrence stays. -/
def rOut : WVal :=
  WVal.obj (WFields.cons "a" (WVal.str "a cat")
    (WFields.cons "b" (WVal.obj (WFields.cons "c" (WVal.str "a cat") WFields.nil))
      (WFields.cons "d" (WVal.arr (WItems.cons (WVal.str promptSentinel) WItems.nil))
        WFields.nil)))

/-- Parameters whose prompt collides with the frame-count sentinel. -/
def pB : WParams :=
  { prompt := "101", target_width := 1280, target_height := 720,
    n_frames := 49, imageName := "img.png" }

/-- A one-entry template holding the prompt sentinel. -/
def tB : WVal := WVal.obj (WFields.cons "k" (WVal.str promptSentinel) WFields.nil)

/-- Arguments for the `replace_in_dict` evaluation, mirroring the constants
of img2vid.py lines 53-58. -/
def aA : RArgs :=
  { old_prompt := promptSentinel, new_prompt := "a dog",
    old_height := 720, new_height := 480,
    old_width := 1280, new_width := 640,
    old_frames := 101, new_frames := 33,
    old_image := imageSentinel, new_image := "pic.jpg" }

/-- C6 (counterexample): materialization does not replace every occurrence
of a sentinel throughout all nested mappings and sequences.  On `tA`, which
duplicates the prompt sentinel in three nested locations, the occurrence
sitting directly inside a sequence survives, so only two of the three are
replaced; `replace_in_dict` has the same hole.  Moreover re-running
materialization on its own output with the same parameters is not a no-op
in general: with a prompt equal to the string "101" the second run turns
the freshly inserted prompt into the frame count. -/
theorem update_workflow_params_misses_sequence_element :
    update_workflow_params pA tA = rOut ∧
    occursVal promptSentinel (update_workflow_params pA tA) = true ∧
    pA.prompt ≠ promptSentinel ∧
    replace_in_dict aA (WVal.arr (WItems.cons (WVal.str promptSentinel) WItems.nil)) =
      WVal.arr (WItems.cons (WVal.str promptSentinel) WItems.nil) ∧
    update_workflow_params pB (update_workflow_params pB tB) ≠
      update_workflow_params pB tB := by
  refine ⟨rfl, by decide, by decide, rfl, by decide⟩

/-- C6 (amended): materialization replaces a sentinel wherever it occurs
as a mapping entry value, at any nesting depth (the dimension sentinels
only under a key whose lowercase form ends in "width" or "height"); a
sentinel occurring as a direct sequence element is left unchanged, as
`tA` shows; and re-running materialization on its own output with the
same parameters is a no-op provided no parameter value collides with a
sentinel of a different meaning (`goodParams`). -/
theorem update_workflow_params_spec :
    (∀ p k, entryOnce p k (WVal.str promptSentinel) = WVal.str p.prompt) ∧
    (∀ p k, lowerEnds k "width" = true →
      entryOnce p k (WVal.int 720) = WVal.int p.target_width) ∧
    (∀ p k, entryOnce p k (WVal.str "101") = WVal.int p.n_frames) ∧
    (∀ p k, entryOnce p k (WVal.str imageSentinel) = WVal.str p.imageName) ∧
    update_workflow_params pA tA = rOut ∧
    (∀ p, goodParams p → ∀ w,
      update_workflow_params p (update_workflow_params p w) =
        update_workflow_params p w) := by
  refine ⟨?_, ?_, ?_, ?_, rfl, ?_⟩
  · intro p k
    exact entryOnce_of_subst_some (by simp [sentinelSubst, isStrEq])
  · intro p k hk
    exact entryOnce_of_subst_some (by simp [sentinelSubst, isStrEq, isDimSentinel, hk])
  · intro p k
    exact entryOnce_of_subst_some (by
      simp [sentinelSubst, isStrEq, isDimSentinel, isFrameSentinel,
        (show ("101" : String) ≠ promptSentinel by decide)])
  · intro p k
    exact entryOnce_of_subst_some (by
      simp [sentinelSubst, isStrEq, isDimSentinel, isFrameSentinel,
        (show imageSentinel ≠ promptSentinel by decide),
        (show imageSentinel ≠ "720" by decide),
        (show imageSentinel ≠ "1280" by decide),
        (show imageSentinel ≠ "101" by decide)])
  · intro p hp w
    exact updateVal_idem p hp w

/-- C6 (witness): the width-entry replacement and the idempotence of
`update_workflow_params_spec` at concrete inputs. -/
theorem update_workflow_params_spec_witness :
    entryOnce pA "imageWidth" (WVal.int 720) = WVal.int pA.target_width ∧
    update_workflow_params pA (update_workflow_params pA tA) =
      update_workflow_params pA tA := by
  constructor
  · exact update_workflow_params_spec.2.1 pA "imageWidth" (by decide)
  · exact update_workflow_params_spec.2.2.2.2.2 pA (by decide) tA

/-! ### Frame extraction: `video_utils.extract_last_frame`

The source (video_utils.py 31-86) reads the container's reported frame
count.  When it is nonpositive it decodes sequentially to end-of-stream,
keeping the last decoded frame.  Otherwise it seeks to index
`total_frames - 1` and reads; if that read fails it retries seeks at
offsets 2, 3, 4, 5 from the end (skipping negative indices) and keeps the
first frame a retry produces.  It raises if no frame was obtained and if
`cv2.imwrite` reports failure.

A capture is modelled by the reported count, the sequence of frames that
sequential decoding yields, and an oracle giving the result of a read
after a seek to a given index.  Frames are abstract identifiers. -/

structure Cap where
  totalFrames : Int
  seqFrames : List Nat
  seekRead : Int → Option Nat

inductive ExtractErr where
  | fileNotFound
  | openFailed
  | noFrame
  | writeFailed
deriving DecidableEq, Repr

/-- The offset-retry loop of video_utils.py 58-64: the first successful
read among seeks to `total - o` for `o` in `[2, 3, 4, 5]`, skipping
negative indices. -/
def tryOffsets (cap : Cap) : List Int → Option Nat
  | [] => none
  | o :: rest =>
    if cap.totalFrames - o ≥ 0 then
      match cap.seekRead (cap.totalFrames - o) with
      | some f => some f
      | none => tryOffsets cap rest
    else tryOffsets cap rest

/-- Embedding of `extract_last_frame(video_path, output_path)`:
`fileExists` is `os.path.exists(video_path)`, `opened` is
`cap.isOpened()`, `writeOk` is the success of `cv2.imwrite`.  Both error
exits of the source raise `ValueError`; the model keeps them apart. -/
def extract_last_frame (fileExists opened : Bool) (cap : Cap) (writeOk : Bool) :
    Except ExtractErr Nat :=
  if !fileExists then Except.error ExtractErr.fileNotFound
  else if !opened then Except.error ExtractErr.openFailed
  else
    let frame : Option Nat :=
      if cap.totalFrames ≤ 0 then
        cap.seqFrames.foldl (fun _ f => some f) none
      else
        match cap.seekRead (cap.totalFrames - 1) with
        | some f => some f
        | none => tryOffsets cap [2, 3, 4, 5]
    match frame with
    | none => Except.error ExtractErr.noFrame
    | some f => if writeOk then Except.ok f else Except.error ExtractErr.writeFailed

/-- A capture whose direct last-frame seek fails but whose seek two from
the end succeeds: frames 10..14, reported count 5. -/
def capC : Cap :=
  { totalFrames := 5, seqFrames := [10, 11, 12, 13, 14],
    seekRead := fun i => if i = 3 then some 13 else none }

/-- A capture where every seek fails although sequential decoding would
produce frames. -/
def capD : Cap :=
  { totalFrames := 5, seqFrames := [10, 11, 12, 13, 14],
    seekRead := fun _ => none }

theorem foldl_keep_last (l : List Nat) :
    ∀ acc : Option Nat,
      l.foldl (fun _ f => some f) acc =
        match l with
        | [] => acc
        | _ :: _ => l.getLast? := by
  induction l with
  | nil => intro acc; rfl
  | cons h t ih =>
    intro acc
    rw [List.foldl_cons, ih (some h)]
    cases t with
    | nil => rfl
    | cons h2 t2 => simp [List.getLast?_cons_cons]

/-- C7 (counterexample): when the direct seek to the reported last frame
fails, the source does not fall back to sequential decoding: on `capC`
the fallback seek two from the end returns frame 13 although the final
decodable frame is 14; and on `capD`, where every seek fails but five
frames are sequentially decodable, the function raises instead of
decoding them. -/
theorem extract_last_frame_fallback_not_sequential :
    extract_last_frame true true capC true = Except.ok 13 ∧
    capC.seqFrames.getLast? = some 14 ∧ (13 : Nat) ≠ 14 ∧
    extract_last_frame true true capD true = Except.error ExtractErr.noFrame ∧
    capD.seqFrames ≠ [] := by
  refine ⟨rfl, rfl, by decide, rfl, by decide⟩

/-- C7 (amended): when the reported frame count is nonpositive the
function decodes sequentially and returns the final decodable frame
(raising if there is none); when the count is positive it returns the
frame read by seeking to the last reported index, and if that read fails
it returns the first frame produced by retry seeks at offsets 2..5 from
the end — which need not be the final decodable frame — raising if the
retries also fail; a missing file or unopenable video raises; a write
failure raises after a frame was obtained. -/
theorem extract_last_frame_spec (cap : Cap) (writeOk : Bool) :
    (cap.totalFrames ≤ 0 →
      extract_last_frame true true cap writeOk =
        match cap.seqFrames.getLast? with
        | some f => if writeOk then Except.ok f else Except.error ExtractErr.writeFailed
        | none => Except.error ExtractErr.noFrame) ∧
    (∀ f, 0 < cap.totalFrames → cap.seekRead (cap.totalFrames - 1) = some f →
      extract_last_frame true true cap writeOk =
        if writeOk then Except.ok f else Except.error ExtractErr.writeFailed) ∧
    (∀ f, 0 < cap.totalFrames → cap.seekRead (cap.totalFrames - 1) = none →
      tryOffsets cap [2, 3, 4, 5] = some f →
      extract_last_frame true true cap writeOk =
        if writeOk then Except.ok f else Except.error ExtractErr.writeFailed) ∧
    (0 < cap.totalFrames → cap.seekRead (cap.totalFrames - 1) = none →
      tryOffsets cap [2, 3, 4, 5] = none →
      extract_last_frame true true cap writeOk = Except.error ExtractErr.noFrame) ∧
    extract_last_frame false true cap writeOk = Except.error ExtractErr.fileNotFound ∧
    extract_last_frame true false cap writeOk = Except.error ExtractErr.openFailed := by
  refine ⟨?_, ?_, ?_, ?_, rfl, rfl⟩
  · intro h
    unfold extract_last_frame
    simp only [Bool.not_true, Bool.false_eq_true, if_false, if_pos h]
    rw [foldl_keep_last]
    cases hsf : cap.seqFrames with
    | nil => rfl
    | cons a t =>
      obtain ⟨x, hx⟩ := Option.isSome_iff_exists.mp
        (List.getLast?_isSome.mpr (List.cons_ne_nil a t))
      rw [hx]
  · intro f hpos hseek
    unfold extract_last_frame
    have hnle : ¬ cap.totalFrames ≤ 0 := by omega
    simp only [Bool.not_true, Bool.false_eq_true, if_false, if_neg hnle, hseek]
  · intro f hpos hseek htry
    unfold extract_last_frame
    have hnle : ¬ cap.totalFrames ≤ 0 := by omega
    simp only [Bool.not_true, Bool.false_eq_true, if_false, if_neg hnle, hseek, htry]
  · intro hpos hseek htry
    unfold extract_last_frame
    have hnle : ¬ cap.totalFrames ≤ 0 := by omega
    simp only [Bool.not_true, Bool.false_eq_true, if_false, if_neg hnle, hseek, htry]

/-- C7 (witness): the sequential branch of `extract_last_frame_spec` on a
capture reporting zero frames, and the fallback branch on `capC`. -/
theorem extract_last_frame_spec_witness :
    extract_last_frame true true ⟨0, [10, 11, 12, 13, 14], fun _ => none⟩ true =
      Except.ok 14 ∧
    extract_last_frame true true capC true = Except.ok 13 := by
  constructor
  · simpa using
      (extract_last_frame_spec ⟨0, [10, 11, 12, 13, 14], fun _ => none⟩ true).1
        (by decide)
  · simpa using
      (extract_last_frame_spec capC true).2.2.1 13 (by decide) rfl rfl

/-! ### The orchestrator: `long_video.LongVideoGenerator.generate_long_video`

Scratch storage is the temp directory (config.py: `TEMP_DIR`), bridge
frames go to the render server's input directory (`COMFYUI_INPUT_DIR`).
Directories are sets of file names (a list without duplicates is kept by
`fsAdd`; Python writes overwrite, so re-adding a name is a no-op).

The per-segment names carry the configured markers `last_frame_` /
`segment_` (config.py lines 48-49) followed by a per-segment timestamp,
modelled as the segment index; `final_<timestamp>.mp4` is the stitched
output name (long_video.py line 113).

`generate_video_segment` (rendering, waiting, locating and copying the
output) and `extract_last_frame` can each raise; the loop's outcome at
each index is an oracle.  On success `generate_video_segment` leaves the
copied segment in the temp directory; on failure it leaves nothing (a
partial copy would be removed by the cleanup pass, matching either way).
-/

def frameTag : String := "last_frame_"

def segTag : String := "segment_"

def finalName : String := "final_0.mp4"

def strStarts (s t : String) : Bool := t.data.isPrefixOf s.data

/-- A name matching the glob `last_frame_*` or `segment_*` used by
`_cleanup_temp_files` (long_video.py line 193). -/
def matchesTempPattern (f : String) : Bool :=
  strStarts f frameTag || strStarts f segTag

def segName (i : Nat) : String := segTag ++ toString i ++ ".mp4"

def frameName (i : Nat) : String := frameTag ++ toString i ++ ".png"

structure FS where
  temp : List String
  input : List String
deriving DecidableEq, Repr

/-- Creating (or overwriting) a file: the name set gains the name. -/
def fsAdd (d : List String) (f : String) : List String :=
  if f ∈ d then d else f :: d

/-- `os.remove`: the name disappears. -/
def fsRemove (d : List String) (f : String) : List String :=
  d.filter (fun g => decide (g ≠ f))

structure Segment where
  frames : Int
  prompt : Option String
deriving DecidableEq, Repr

/-- Python `segment.get('prompt') or current_prompt` (long_video.py line
94): an absent or empty prompt falls back to the current one. -/
def resolvePrompt (explicitP : Option String) (cur : String) : String :=
  match explicitP with
  | some p => if p = "" then cur else p
  | none => cur

/-- Success of the fallible steps of a run: segment generation and frame
extraction at each index, and the final concatenation. -/
structure SegOracle where
  genOk : Nat → Bool
  extractOk : Nat → Bool
  concatOk : Bool

inductive LoopOut where
  | done (videoSegments : List String) (cleanup : List String) (fs : FS)
      (calls : List (String × String × Int))
  | failed (videoSegments : List String) (cleanup : List String) (fs : FS)
      (calls : List (String × String × Int))
deriving Repr

/-- The `for i, segment in enumerate(segments_data)` loop of
long_video.py 92-109, with its accumulators: the resolved prompt is
computed, `generate_video_segment` is called (recorded in `calls`), on
success the copied segment video appears in the temp directory and is
appended to `video_segments`; for a non-last segment the last frame is
extracted into the server input directory, appended to the cleanup list,
and becomes the next source image while the resolved prompt becomes the
next current prompt.  A raise at any step exits the loop as `failed`. -/
def segLoop (oracle : SegOracle) :
    List Segment → Nat → String → String → List String → List String → FS →
      List (String × String × Int) → LoopOut
  | [], _, _, _, segsAcc, clean, fs, calls => LoopOut.done segsAcc clean fs calls
  | seg :: rest, i, curImg, curPrompt, segsAcc, clean, fs, calls =>
    let p := resolvePrompt seg.prompt curPrompt
    let calls2 := calls ++ [(p, curImg, seg.frames)]
    if oracle.genOk i then
      let fs2 : FS := { fs with temp := fsAdd fs.temp (segName i) }
      let segs2 := segsAcc ++ [segName i]
      match rest with
      | [] => LoopOut.done segs2 clean fs2 calls2
      | _ :: _ =>
        if oracle.extractOk i then
          let fs3 : FS := { fs2 with input := fsAdd fs2.input (frameName i) }
          segLoop oracle rest (i + 1) (frameName i) p segs2
            (clean ++ [frameName i]) fs3 calls2
        else LoopOut.failed segs2 clean fs2 calls2
    else LoopOut.failed segsAcc clean fs calls2

/-- One file surviving `_cleanup_temp_files(keep)`: it is removed exactly
when it matches a pattern and is not in the keep list. -/
def cleanupKeep (keep : List String) (f : String) : Bool :=
  !(matchesTempPattern f && !(decide (f ∈ keep)))

/-- The `finally` block of long_video.py 119-128:
`_cleanup_temp_files(video_segments)` filters the temp directory, then
each recorded bridge frame is removed from the server input directory. -/
def cleanupPhase (fs : FS) (keep clean : List String) : FS :=
  { temp := fs.temp.filter (cleanupKeep keep),
    input := clean.foldl fsRemove fs.input }

structure RunResult where
  result : Option String
  fs : FS
  videoSegments : List String
  bridgeFrames : List String
  segCalls : List (String × String × Int)
  concatCalls : List (List String)
deriving Repr

/-- Embedding of `generate_long_video(initial_prompt, initial_image,
segments_data)` over an initial file-system state: run the segment loop;
on completion stitch when more than one segment exists (the stitched file
is created even when concatenation then raises, and the call is
recorded), otherwise return the lone segment video (an empty request
raises IndexError); in every case — return or raise — the `finally`
cleanup runs. -/
def generate_long_video (oracle : SegOracle) (initial_prompt initial_image : String)
    (segments_data : List Segment) (fs0 : FS) : RunResult :=
  match segLoop oracle segments_data 0 initial_image initial_prompt [] [] fs0 [] with
  | LoopOut.done videoSegments clean fs calls =>
    if videoSegments.length > 1 then
      let fs2 : FS := { fs with temp := fsAdd fs.temp finalName }
      { result := if oracle.concatOk then some finalName else none,
        fs := cleanupPhase fs2 videoSegments clean,
        videoSegments := videoSegments, bridgeFrames := clean,
        segCalls := calls, concatCalls := [videoSegments] }
    else
      match videoSegments with
      | [v] =>
        { result := some v, fs := cleanupPhase fs videoSegments clean,
          videoSegments := videoSegments, bridgeFrames := clean,
          segCalls := calls, concatCalls := [] }
      | _ =>
        { result := none, fs := cleanupPhase fs videoSegments clean,
          videoSegments := videoSegments, bridgeFrames := clean,
          segCalls := calls, concatCalls := [] }
  | LoopOut.failed videoSegments clean fs calls =>
    { result := none, fs := cleanupPhase fs videoSegments clean,
      videoSegments := videoSegments, bridgeFrames := clean,
      segCalls := calls, concatCalls := [] }

/-- The oracle of a fully successful run. -/
def allOk : SegOracle := ⟨fun _ => true, fun _ => true, true⟩

/-- The segment video names a run starting at index `i` produces. -/
def segNamesFrom (i : Nat) : List Segment → List String
  | [] => []
  | _ :: rest => segName i :: segNamesFrom (i + 1) rest

/-- The bridge-frame names a successful run starting at index `i`
produces: one per non-last segment. -/
def expectedFrames (i : Nat) : List Segment → List String
  | [] => []
  | [_] => []
  | _ :: rest => frameName i :: expectedFrames (i + 1) rest

/-- Restates the claim's description of the segment calls: segment i is
rendered with its own prompt or, when absent, the previous segment's
resolved prompt, against the previous segment's extracted last frame
(the initial image for segment 0). -/
def expectedCalls (i : Nat) (img prompt : String) :
    List Segment → List (String × String × Int)
  | [] => []
  | s :: rest =>
    let p := resolvePrompt s.prompt prompt
    (p, img, s.frames) :: expectedCalls (i + 1) (frameName i) p rest

theorem segLoop_allOk (segs : List Segment) :
    ∀ i img prompt acc clean fs calls,
      segLoop allOk segs i img prompt acc clean fs calls =
        LoopOut.done (acc ++ segNamesFrom i segs) (clean ++ expectedFrames i segs)
          ⟨(segNamesFrom i segs).foldl fsAdd fs.temp,
            (expectedFrames i segs).foldl fsAdd fs.input⟩
          (calls ++ expectedCalls i img prompt segs) := by
  induction segs with
  | nil =>
    intro i img prompt acc clean fs calls
    simp [segLoop, segNamesFrom, expectedFrames, expectedCalls]
  | cons s rest ih =>
    intro i img prompt acc clean fs calls
    cases rest with
    | nil =>
      simp [segLoop, allOk, segNamesFrom, expectedFrames, expectedCalls]
    | cons s2 rest2 =>
      rw [segLoop]
      simp only [show allOk.genOk i = true from rfl,
        show allOk.extractOk i = true from rfl, if_true]
      rw [ih (i + 1) (frameName i) (resolvePrompt s.prompt prompt)
        (acc ++ [segName i]) (clean ++ [frameName i]) _ _]
      simp [segNamesFrom, expectedFrames, expectedCalls, List.foldl_cons]

theorem mem_fsAdd {l : List String} {g f : String} (h : g ∈ l) : g ∈ fsAdd l f := by
  unfold fsAdd
  split
  · exact h
  · exact List.mem_cons_of_mem f h

theorem self_mem_fsAdd (l : List String) (f : String) : f ∈ fsAdd l f := by
  unfold fsAdd
  split
  · assumption
  · exact List.mem_cons_self f l

theorem mem_foldl_fsAdd (fl : List String) :
    ∀ (l : List String) (f : String), f ∈ l ∨ f ∈ fl → f ∈ fl.foldl fsAdd l := by
  induction fl with
  | nil =>
    intro l f h
    simpa using h.resolve_right (by simp)
  | cons c rest ih =>
    intro l f h
    rw [List.foldl_cons]
    rcases h with h | h
    · exact ih _ f (Or.inl (mem_fsAdd h))
    · rcases List.mem_cons.mp h with rfl | h
      · exact ih _ f (Or.inl (self_mem_fsAdd l f))
      · exact ih _ f (Or.inr h)

theorem not_mem_fsRemove (l : List String) (f : String) : f ∉ fsRemove l f := by
  intro h
  have := List.of_mem_filter h
  simp at this

theorem not_mem_fsRemove_of (l : List String) (f g : String) (h : f ∉ l) :
    f ∉ fsRemove l g := fun hm => h (List.mem_of_mem_filter hm)

theorem not_mem_foldl_fsRemove_of (clean : List String) :
    ∀ (l : List String) (f : String), f ∉ l → f ∉ clean.foldl fsRemove l := by
  induction clean with
  | nil => intro l f h; simpa using h
  | cons c rest ih =>
    intro l f h
    rw [List.foldl_cons]
    exact ih _ f (not_mem_fsRemove_of l f c h)

theorem not_mem_foldl_fsRemove (clean : List String) :
    ∀ (l : List String) (f : String), f ∈ clean → f ∉ clean.foldl fsRemove l := by
  induction clean with
  | nil => intro l f h; simp at h
  | cons c rest ih =>
    intro l f h
    rw [List.foldl_cons]
    rcases List.mem_cons.mp h with rfl | h
    · exact not_mem_foldl_fsRemove_of rest _ f (not_mem_fsRemove l f)
    · exact ih _ f h

/-- The two facts the finally-block cleanup establishes: a surviving
pattern-matching temp file is in the keep list, and no file of the
bridge-frame cleanup list survives in the input directory. -/
theorem cleanupPhase_spec (fs : FS) (keep clean : List String) :
    (∀ f, f ∈ (cleanupPhase fs keep clean).temp → matchesTempPattern f = true → f ∈ keep) ∧
    (∀ f, f ∈ clean → f ∉ (cleanupPhase fs keep clean).input) := by
  constructor
  · intro f hf hm
    have hk := List.of_mem_filter hf
    unfold cleanupKeep at hk
    simp [hm] at hk
    exact hk
  · intro f hf
    exact not_mem_foldl_fsRemove clean fs.input f hf

/-- C1 (amended): after any run of `generate_long_video` — every oracle
outcome, so every exit path including raises at any step — the cleanup
phase has run: every file of the scratch directory matching the
bridge-frame or per-segment-video patterns is one of the run's own
per-segment videos (which the finally block deliberately keeps), and no
bridge frame extracted by the run remains in the server input
directory. -/
theorem generate_long_video_cleanup (oracle : SegOracle)
    (ip ii : String) (segs : List Segment) (fs0 : FS) :
    (∀ f, f ∈ (generate_long_video oracle ip ii segs fs0).fs.temp →
      matchesTempPattern f = true →
      f ∈ (generate_long_video oracle ip ii segs fs0).videoSegments) ∧
    (∀ f, f ∈ (generate_long_video oracle ip ii segs fs0).bridgeFrames →
      f ∉ (generate_long_video oracle ip ii segs fs0).fs.input) := by
  unfold generate_long_video
  cases segLoop oracle segs 0 ii ip [] [] fs0 [] with
  | done videoSegments clean fs calls =>
    by_cases hl : videoSegments.length > 1
    · simp only [hl, if_true]
      exact cleanupPhase_spec _ videoSegments clean
    · simp only [hl, if_false]
      cases videoSegments with
      | nil => exact cleanupPhase_spec _ _ clean
      | cons v t =>
        cases t with
        | nil => exact cleanupPhase_spec _ _ clean
        | cons v2 t2 => exact cleanupPhase_spec _ _ clean
  | failed videoSegments clean fs calls =>
    exact cleanupPhase_spec _ videoSegments clean

/-- C1 (counterexample): a fully successful two-segment run returns the
stitched file, yet both per-segment videos survive in the scratch
directory — `_cleanup_temp_files(video_segments)` passes the segment
videos as the keep list (long_video.py line 121), so files matching the
per-segment pattern other than the returned file do remain. -/
theorem generate_long_video_keeps_segment_files :
    (generate_long_video allOk "p" "init.png"
      [⟨16, some "a"⟩, ⟨16, some "b"⟩] ⟨[], []⟩).result = some finalName ∧
    "segment_0.mp4" ∈ (generate_long_video allOk "p" "init.png"
      [⟨16, some "a"⟩, ⟨16, some "b"⟩] ⟨[], []⟩).fs.temp ∧
    matchesTempPattern "segment_0.mp4" = true ∧
    ("segment_0.mp4" : String) ≠ finalName := by
  refine ⟨rfl, by decide, by decide, by decide⟩

/-- C1 (witness): the cleanup theorem applied to a concrete two-segment
run over a scratch directory holding a stale segment file. -/
theorem generate_long_video_cleanup_witness :
    "segment_0.mp4" ∈ (generate_long_video allOk "q" "i0.png"
      [⟨8, none⟩, ⟨8, none⟩] ⟨["segment_9.mp4"], []⟩).videoSegments ∧
    "last_frame_0.png" ∉ (generate_long_video allOk "q" "i0.png"
      [⟨8, none⟩, ⟨8, none⟩] ⟨["segment_9.mp4"], []⟩).fs.input := by
  constructor
  · exact (generate_long_video_cleanup allOk "q" "i0.png"
      [⟨8, none⟩, ⟨8, none⟩] ⟨["segment_9.mp4"], []⟩).1 "segment_0.mp4"
      (by decide) (by decide)
  · exact (generate_long_video_cleanup allOk "q" "i0.png"
      [⟨8, none⟩, ⟨8, none⟩] ⟨["segment_9.mp4"], []⟩).2 "last_frame_0.png"
      (by decide)

/-- C3: a valid request with exactly one segment whose generation
succeeds returns that single rendered segment's video path; the stitcher
is never invoked. -/
theorem single_segment_returns_lone_video (oracle : SegOracle)
    (h : oracle.genOk 0 = true) (ip ii : String) (seg : Segment) (fs0 : FS) :
    (generate_long_video oracle ip ii [seg] fs0).result = some (segName 0) ∧
    (generate_long_video oracle ip ii [seg] fs0).concatCalls = [] ∧
    (generate_long_video oracle ip ii [seg] fs0).videoSegments = [segName 0] := by
  refine ⟨?_, ?_, ?_⟩ <;> simp [generate_long_video, segLoop, h]

/-- C3 (witness): the single-segment theorem on a concrete request. -/
theorem single_segment_returns_lone_video_witness :
    (generate_long_video allOk "p" "i.png" [⟨9, none⟩] ⟨[], []⟩).result =
      some (segName 0) ∧
    (generate_long_video allOk "p" "i.png" [⟨9, none⟩] ⟨[], []⟩).concatCalls = [] :=
  ⟨(single_segment_returns_lone_video allOk rfl "p" "i.png" ⟨9, none⟩ ⟨[], []⟩).1,
   (single_segment_returns_lone_video allOk rfl "p" "i.png" ⟨9, none⟩ ⟨[], []⟩).2.1⟩

/-- C9: in a successful run, the sequence of `generate_video_segment`
calls matches the spec's description — segment i is rendered with its
explicit prompt or, if absent or empty, the previous segment's resolved
prompt (segment 0 falling back to the request's initial prompt), against
the bridge frame extracted from segment i-1 (the initial image for
segment 0) — and each non-last segment's bridge frame has been written
into the render server's input directory by the time the loop
completes. -/
theorem segment_prompt_inheritance (ip ii : String) (segs : List Segment) (fs0 : FS) :
    (generate_long_video allOk ip ii segs fs0).segCalls = expectedCalls 0 ii ip segs ∧
    (∃ fsOut,
      segLoop allOk segs 0 ii ip [] [] fs0 [] =
        LoopOut.done (segNamesFrom 0 segs) (expectedFrames 0 segs) fsOut
          (expectedCalls 0 ii ip segs) ∧
      ∀ f, f ∈ expectedFrames 0 segs → f ∈ fsOut.input) := by
  have hloop := segLoop_allOk segs 0 ii ip [] [] fs0 []
  simp only [List.nil_append] at hloop
  have hcalls : ∀ oracle : SegOracle,
      (generate_long_video oracle ip ii segs fs0).segCalls =
        match segLoop oracle segs 0 ii ip [] [] fs0 [] with
        | LoopOut.done _ _ _ calls => calls
        | LoopOut.failed _ _ _ calls => calls := by
    intro oracle
    unfold generate_long_video
    cases segLoop oracle segs 0 ii ip [] [] fs0 [] with
    | done v c f calls =>
      by_cases hl : v.length > 1
      · simp [hl]
      · simp only [hl, if_false]
        cases v with
        | nil => rfl
        | cons a t =>
          cases t with
          | nil => rfl
          | cons b t2 => rfl
    | failed v c f calls => rfl
  constructor
  · rw [hcalls allOk, hloop]
  · refine ⟨⟨(segNamesFrom 0 segs).foldl fsAdd fs0.temp,
      (expectedFrames 0 segs).foldl fsAdd fs0.input⟩, hloop, ?_⟩
    intro f hf
    exact mem_foldl_fsAdd _ _ f (Or.inr hf)

/-- C9 (witness): the inheritance theorem on a three-segment request
whose middle segment carries an empty prompt and whose last carries its
own; the expected call list is also evaluated, showing the inherited
prompts and the chained bridge-frame images. -/
theorem segment_prompt_inheritance_witness :
    (generate_long_video allOk "p0" "i0.png"
      [⟨8, none⟩, ⟨8, some ""⟩, ⟨8, some "c"⟩] ⟨[], []⟩).segCalls =
      expectedCalls 0 "i0.png" "p0" [⟨8, none⟩, ⟨8, some ""⟩, ⟨8, some "c"⟩] ∧
    expectedCalls 0 "i0.png" "p0" [⟨8, none⟩, ⟨8, some ""⟩, ⟨8, some "c"⟩] =
      [("p0", "i0.png", 8), ("p0", frameName 0, 8), ("c", frameName 1, 8)] ∧
    (∃ fsOut,
      segLoop allOk [⟨8, none⟩, ⟨8, some ""⟩, ⟨8, some "c"⟩] 0 "i0.png" "p0"
          [] [] ⟨[], []⟩ [] =
        LoopOut.done (segNamesFrom 0 [⟨8, none⟩, ⟨8, some ""⟩, ⟨8, some "c"⟩])
          (expectedFrames 0 [⟨8, none⟩, ⟨8, some ""⟩, ⟨8, some "c"⟩]) fsOut
          (expectedCalls 0 "i0.png" "p0" [⟨8, none⟩, ⟨8, some ""⟩, ⟨8, some "c"⟩]) ∧
      frameName 0 ∈ fsOut.input) := by
  refine ⟨(segment_prompt_inheritance "p0" "i0.png"
    [⟨8, none⟩, ⟨8, some ""⟩, ⟨8, some "c"⟩] ⟨[], []⟩).1, by decide, ?_⟩
  obtain ⟨fsOut, h1, h2⟩ := (segment_prompt_inheritance "p0" "i0.png"
    [⟨8, none⟩, ⟨8, some ""⟩, ⟨8, some "c"⟩] ⟨[], []⟩).2
  exact ⟨fsOut, h1, h2 (frameName 0) (by decide)⟩

/-! ### Stitching: `video_utils.concatenate_videos`

A frame is its dimensions plus an abstract content identifier;
`cv2.resize` rescales the whole frame to the target size, keeping its
content (no cropping — contrast `resize_with_crop` in media_utils.py,
which concatenate_videos does not use).  A video is its on-disk
presence, whether `cv2.VideoCapture` can open it, the metadata
dimensions its properties report, and its decodable frames; a capture
that fails to open just yields no frames inside the read loop. -/

structure Frame where
  width : Nat
  height : Nat
  content : Nat
deriving DecidableEq, Repr

structure Video where
  present : Bool
  openable : Bool
  metaWidth : Nat
  metaHeight : Nat
  frames : List Frame
deriving Repr

/-- The width/height part of `get_video_info` (video_utils.py 7-28):
`none` when the capture cannot be opened. -/
def get_video_info (v : Video) : Option (Nat × Nat) :=
  if v.openable then some (v.metaWidth, v.metaHeight) else none

/-- Embedding of `cv2.resize(frame, (w, h))`: rescaling, not cropping. -/
def cvResize (f : Frame) (w h : Nat) : Frame :=
  { width := w, height := h, content := f.content }

/-- All frames the read loop obtains from one input. -/
def readAll (v : Video) : List Frame :=
  if v.openable then v.frames else []

/-- The per-frame body of the write loop (video_utils.py 125-128):
resize when either dimension differs from the output settings. -/
def fitFrame (w h : Nat) (f : Frame) : Frame :=
  if f.width ≠ w ∨ f.height ≠ h then cvResize f w h else f

inductive ConcatErr where
  | needAtLeastTwo
  | fileNotFound
  | unreadableFirst
  | writerFailed
deriving DecidableEq, Repr

/-- Embedding of `concatenate_videos(video_paths, output_path,
target_fps)` (video_utils.py 89-138), returning the sequence of frames
written to the output: fewer than two inputs raise; a missing input
raises; unreadable first-video properties raise; an unopenable writer
raises; otherwise the inputs are traversed in submission order and every
frame is written after fitting to the first video's dimensions.  The fps
choice (`target_fps or 20.0`) only tags the container and is outside the
model. -/
def concatenate_videos (vids : List Video) (writerOk : Bool) :
    Except ConcatErr (List Frame) :=
  if vids.length < 2 then Except.error ConcatErr.needAtLeastTwo
  else if vids.any (fun v => !v.present) then Except.error ConcatErr.fileNotFound
  else
    match vids with
    | [] => Except.error ConcatErr.needAtLeastTwo
    | v0 :: _ =>
      match get_video_info v0 with
      | none => Except.error ConcatErr.unreadableFirst
      | some (w, h) =>
        if !writerOk then Except.error ConcatErr.writerFailed
        else Except.ok (vids.flatMap (fun v => (readAll v).map (fitFrame w h)))

theorem fitFrame_content (w h : Nat) (f : Frame) :
    (fitFrame w h f).content = f.content := by
  unfold fitFrame cvResize
  split <;> rfl

theorem fitFrame_dims (w h : Nat) (f : Frame) :
    (fitFrame w h f).width = w ∧ (fitFrame w h f).height = h := by
  unfold fitFrame cvResize
  by_cases hc : f.width ≠ w ∨ f.height ≠ h
  · rw [if_pos hc]; exact ⟨rfl, rfl⟩
  · rw [if_neg hc]; push_neg at hc; exact hc

theorem segNamesFrom_length : ∀ (segs : List Segment) (i : Nat),
    (segNamesFrom i segs).length = segs.length := by
  intro segs
  induction segs with
  | nil => intro i; rfl
  | cons s rest ih => intro i; simp [segNamesFrom, ih]

/-- C8: `concatenate_videos` requires at least two inputs and raises on a
missing input; on a valid request the output is `ok` and its frames have
the first video's dimensions throughout — frames of other dimensions are
rescaled, preserving their content — and the written sequence is the
concatenation of the inputs' frame sequences in the original submission
order; and a successful multi-segment orchestrator run invokes the
stitcher exactly once, on the per-segment videos in submission order. -/
theorem concatenate_videos_spec (vids : List Video) (writerOk : Bool) :
    (vids.length < 2 →
      concatenate_videos vids writerOk = Except.error ConcatErr.needAtLeastTwo) ∧
    (2 ≤ vids.length → (∃ v ∈ vids, v.present = false) →
      concatenate_videos vids writerOk = Except.error ConcatErr.fileNotFound) ∧
    (∀ v0 rest, vids = v0 :: rest → 2 ≤ vids.length →
      (∀ v ∈ vids, v.present = true) → v0.openable = true → writerOk = true →
      ∃ fs, concatenate_videos vids writerOk = Except.ok fs ∧
        (∀ f ∈ fs, f.width = v0.metaWidth ∧ f.height = v0.metaHeight) ∧
        fs.map Frame.content = (vids.flatMap readAll).map Frame.content) ∧
    (∀ ip ii segs fs0, 2 ≤ List.length segs →
      (generate_long_video allOk ip ii segs fs0).concatCalls =
        [segNamesFrom 0 segs]) := by
  refine ⟨?_, ?_, ?_, ?_⟩
  · intro h
    unfold concatenate_videos
    rw [if_pos h]
  · intro h2 hex
    obtain ⟨v, hv, hp⟩ := hex
    unfold concatenate_videos
    rw [if_neg (by omega), if_pos (List.any_eq_true.mpr ⟨v, hv, by simp [hp]⟩)]
  · intro v0 rest hv hlen hall hop hw
    subst hv
    subst hw
    refine ⟨(v0 :: rest).flatMap
      (fun v => (readAll v).map (fitFrame v0.metaWidth v0.metaHeight)), ?_, ?_, ?_⟩
    · unfold concatenate_videos
      rw [if_neg (by omega),
        if_neg (by
          rw [Bool.not_eq_true, List.any_eq_false]
          intro v hvm
          simp [hall v hvm])]
      simp [get_video_info, hop]
    · intro f hf
      obtain ⟨v, hvm, hfm⟩ := List.mem_flatMap.mp hf
      obtain ⟨g, hgm, rfl⟩ := List.mem_map.mp hfm
      exact fitFrame_dims v0.metaWidth v0.metaHeight g
    · simp [List.map_flatMap, List.map_map, Function.comp_def, fitFrame_content]
  · intro ip ii segs fs0 hl2
    have hloop := segLoop_allOk segs 0 ii ip [] [] fs0 []
    simp only [List.nil_append] at hloop
    unfold generate_long_video
    rw [hloop]
    have hl : (segNamesFrom 0 segs).length > 1 := by
      rw [segNamesFrom_length]; omega
    simp [hl]

/-- Two present, openable inputs of different dimensions. -/
def vidA : Video := ⟨true, true, 4, 3, [⟨4, 3, 100⟩, ⟨4, 3, 101⟩]⟩

/-- See `vidA`. -/
def vidB : Video := ⟨true, true, 2, 2, [⟨2, 2, 200⟩]⟩

/-- C8 (witness): the three conclusions of `concatenate_videos_spec` at
concrete inputs. -/
theorem concatenate_videos_spec_witness :
    concatenate_videos [vidA] true = Except.error ConcatErr.needAtLeastTwo ∧
    (∃ fs, concatenate_videos [vidA, vidB] true = Except.ok fs ∧
      (∀ f ∈ fs, f.width = vidA.metaWidth ∧ f.height = vidA.metaHeight) ∧
      fs.map Frame.content = ([vidA, vidB].flatMap readAll).map Frame.content) ∧
    (generate_long_video allOk "p" "i.png" [⟨8, none⟩, ⟨8, some "b"⟩]
      ⟨[], []⟩).concatCalls = [segNamesFrom 0 [⟨8, none⟩, ⟨8, some "b"⟩]] := by
  refine ⟨(concatenate_videos_spec [vidA] true).1 (by decide), ?_, ?_⟩
  · exact (concatenate_videos_spec [vidA, vidB] true).2.2.1 vidA [vidB] rfl
      (by decide) (by decide) (by decide) rfl
  · exact (concatenate_videos_spec [] true).2.2.2 "p" "i.png"
      [⟨8, none⟩, ⟨8, some "b"⟩] ⟨[], []⟩ (by decide)

/-! ### Copy-then-delete: `long_video.LongVideoGenerator.generate_video_segment`

Lines 52-70 of long_video.py, after a successful render: the latest
server output video is located with `get_latest_video`, copied into the
temp directory, and then `os.remove`d from the server output directory
inside its own try/except — a deletion failure only logs a warning while
a copy failure re-raises (and then no removal is attempted). -/

inductive SegErr where
  | noOutputVideo
  | copyFailed
deriving DecidableEq, Repr

/-- Removal of `f` inside the subdirectory entry named `s`. -/
def removeEntry (s : String) (f : OutFile) (e : String × List OutFile) :
    String × List OutFile :=
  if e.1 = s then (e.1, e.2.filter (fun g => decide (g ≠ f))) else e

/-- `os.remove` of a located file in the output tree. -/
def removeOut (d : OutputDir) (loc : Loc) (f : OutFile) : OutputDir :=
  match loc with
  | Loc.root => { d with rootFiles := d.rootFiles.filter (fun g => decide (g ≠ f)) }
  | Loc.sub s => { d with subdirs := d.subdirs.map (removeEntry s f) }

/-- Presence of a file at a location of the output tree (the lookup the
rest of the system would perform). -/
def inOutputDir (d : OutputDir) (loc : Loc) (f : OutFile) : Prop :=
  match loc with
  | Loc.root => f ∈ d.rootFiles
  | Loc.sub s => ∃ fs, dirLookup s d.subdirs = some fs ∧ f ∈ fs

/-- Embedding of the copy-and-delete tail of `generate_video_segment`:
the state after locating the output (`get_latest_video`), copying it to
`segPath` in the temp directory (success given by `copyOk`; on failure
the exception propagates before any removal) and attempting `os.remove`
on the original (success given by `removeOk`; failure is swallowed). -/
def generate_video_segment (d : OutputDir) (temp : List String) (segPath : String)
    (copyOk removeOk : Bool) : Except SegErr String × OutputDir × List String :=
  match get_latest_video d with
  | none => (Except.error SegErr.noOutputVideo, d, temp)
  | some (loc, f) =>
    if copyOk then
      if removeOk then (Except.ok segPath, removeOut d loc f, fsAdd temp segPath)
      else (Except.ok segPath, d, fsAdd temp segPath)
    else (Except.error SegErr.copyFailed, d, temp)

theorem removeEntry_eq (s : String) (f : OutFile) (k : String) (v : List OutFile) :
    removeEntry s f (k, v) =
      if k = s then (k, v.filter (fun g => decide (g ≠ f))) else (k, v) := rfl

theorem dirLookup_map_removeEntry (s : String) (f : OutFile) :
    ∀ l : List (String × List OutFile),
      dirLookup s (l.map (removeEntry s f)) =
        (dirLookup s l).map (fun fs => fs.filter (fun g => decide (g ≠ f))) := by
  intro l
  induction l with
  | nil => rfl
  | cons e t ih =>
    obtain ⟨k, v⟩ := e
    by_cases hk : k = s
    · subst hk
      rw [List.map_cons, removeEntry_eq, if_pos rfl]
      simp [dirLookup]
    · rw [List.map_cons, removeEntry_eq, if_neg hk]
      simp [dirLookup, hk, ih]

theorem removeOut_not_mem (d : OutputDir) (loc : Loc) (f : OutFile) :
    ¬ inOutputDir (removeOut d loc f) loc f := by
  cases loc with
  | root =>
    intro h
    unfold removeOut inOutputDir at h
    have := List.of_mem_filter h
    simp at this
  | sub s =>
    rintro ⟨fs, hl, hm⟩
    unfold removeOut at hl
    simp only at hl
    rw [dirLookup_map_removeEntry] at hl
    obtain ⟨fs0, hfs0, rfl⟩ := Option.map_eq_some'.mp hl
    have := List.of_mem_filter hm
    simp at this

/-- C10: after a successful render, `generate_video_segment` copies the
located server output into scratch and then deletes the original from
the server output directory; a deletion failure is tolerated (the
segment still succeeds and the directory is untouched), while a copy
failure aborts the segment before any removal is attempted. -/
theorem generate_video_segment_mutates_output_dir (d : OutputDir)
    (temp : List String) (segPath : String) (removeOk : Bool) (loc : Loc)
    (f : OutFile) (h : get_latest_video d = some (loc, f)) :
    (generate_video_segment d temp segPath true true =
        (Except.ok segPath, removeOut d loc f, fsAdd temp segPath) ∧
      ¬ inOutputDir (removeOut d loc f) loc f) ∧
    generate_video_segment d temp segPath true false =
      (Except.ok segPath, d, fsAdd temp segPath) ∧
    generate_video_segment d temp segPath false removeOk =
      (Except.error SegErr.copyFailed, d, temp) := by
  refine ⟨⟨?_, removeOut_not_mem d loc f⟩, ?_, ?_⟩ <;>
    simp [generate_video_segment, h]

/-- C10 (witness): the mutation theorem on an output root holding one
video in its flat part. -/
theorem generate_video_segment_mutates_output_dir_witness :
    (generate_video_segment ⟨[], [⟨"out.mp4", 3⟩]⟩ [] "segment_0.mp4" true true =
        (Except.ok "segment_0.mp4",
          removeOut ⟨[], [⟨"out.mp4", 3⟩]⟩ Loc.root ⟨"out.mp4", 3⟩,
          fsAdd [] "segment_0.mp4") ∧
      ¬ inOutputDir (removeOut ⟨[], [⟨"out.mp4", 3⟩]⟩ Loc.root ⟨"out.mp4", 3⟩)
        Loc.root ⟨"out.mp4", 3⟩) ∧
    generate_video_segment ⟨[], [⟨"out.mp4", 3⟩]⟩ [] "segment_0.mp4" false true =
      (Except.error SegErr.copyFailed, ⟨[], [⟨"out.mp4", 3⟩]⟩, []) := by
  refine ⟨(generate_video_segment_mutates_output_dir ⟨[], [⟨"out.mp4", 3⟩]⟩ []
    "segment_0.mp4" true Loc.root ⟨"out.mp4", 3⟩ rfl).1, ?_⟩
  exact (generate_video_segment_mutates_output_dir ⟨[], [⟨"out.mp4", 3⟩]⟩ []
    "segment_0.mp4" true Loc.root ⟨"out.mp4", 3⟩ rfl).2.2

/-! ### Request validation: `bot.parse_multi_prompt_message`

bot.py 62-102 parses a multi-prompt message into (prompt, frames) pairs:
lines are stripped, empty ones dropped; the count must be even, nonzero
and at most 100; each frames line must parse as an int within
[2, MAX_FRAMES_PER_SEGMENT]; the running total must never exceed
MAX_TOTAL_FRAMES.  Any violation makes the parser return None, and the
message handler (bot.py 125-126) then never constructs the orchestrator,
so the render client is not invoked at all for such a request.

`pyInt` models Python `int()` on an already-stripped string: an optional
sign followed by decimal digits (Python additionally accepts underscore
grouping and unicode digits; those spellings denote the same values, so
the validation outcome per value is unchanged). -/

def MAX_FRAMES_PER_SEGMENT : Int := 125

def MAX_TOTAL_FRAMES : Int := 10000

/-- Python `str.strip()` on the character list. -/
def pyStripChars (l : List Char) : List Char :=
  ((l.dropWhile Char.isWhitespace).reverse.dropWhile Char.isWhitespace).reverse

/-- Python `text.split('\n')`. -/
def splitNLAux : List Char → List Char → List (List Char)
  | [], acc => [acc.reverse]
  | c :: rest, acc =>
    if c = '\n' then acc.reverse :: splitNLAux rest []
    else splitNLAux rest (c :: acc)

/-- Value of a nonempty all-digit string. -/
def digitsVal (l : List Char) : Option Nat :=
  if l.isEmpty then none
  else
    l.foldl (fun acc c =>
      match acc with
      | none => none
      | some n => if c.isDigit then some (n * 10 + (c.toNat - '0'.toNat)) else none)
      (some 0)

/-- Python `int(s)` for a stripped `s`. -/
def pyInt (l : List Char) : Option Int :=
  match l with
  | '-' :: rest => (digitsVal rest).map (fun n => -(n : Int))
  | '+' :: rest => (digitsVal rest).map (fun n => (n : Int))
  | _ => (digitsVal l).map (fun n => (n : Int))

/-- The `for i in range(0, len(lines), 2)` validation loop of bot.py
78-97, over the stripped nonempty lines, carrying the running total. -/
def parseLoop : List (List Char) → Int → Option (List (String × Int))
  | [], _ => some []
  | p :: fLine :: rest, total =>
    match pyInt fLine with
    | none => none
    | some frames =>
      if frames < 2 ∨ MAX_FRAMES_PER_SEGMENT < frames then none
      else if total + frames > MAX_TOTAL_FRAMES then none
      else
        match parseLoop rest (total + frames) with
        | none => none
        | some segs => some ((String.mk p, frames) :: segs)
  | _ :: [], _ => none

/-- The line-count guard of bot.py line 72 followed by the validation
loop. -/
def checkAndParse (lines : List (List Char)) : Option (List (String × Int)) :=
  if lines.length % 2 ≠ 0 ∨ lines.length = 0 ∨ lines.length > 100 then none
  else parseLoop lines 0

/-- Embedding of `parse_multi_prompt_message(message_text)`. -/
def parse_multi_prompt_message (text : String) : Option (List (String × Int)) :=
  checkAndParse (((splitNLAux text.data []).map pyStripChars).filter
    (fun l => !l.isEmpty))

/-- The number of render submissions the multi-prompt branch of
`bot.message_handler` performs for a message: a message the parser
rejects never constructs the orchestrator, otherwise the orchestrator of
a fully successful run submits one render job per segment (bot.py
125-158: first parsed prompt as default, segments as parsed). -/
def renderCallsForMessage (text : String) : Nat :=
  match parse_multi_prompt_message text with
  | none => 0
  | some segs =>
    (generate_long_video allOk (segs.headD ("", 0)).1 "input.png"
      (segs.map (fun s => Segment.mk s.2 (some s.1))) ⟨[], []⟩).segCalls.length

theorem parseLoop_sound :
    ∀ (lines : List (List Char)) (total : Int) (segs : List (String × Int)),
      parseLoop lines total = some segs →
      (∀ s ∈ segs, 2 ≤ s.2 ∧ s.2 ≤ MAX_FRAMES_PER_SEGMENT) ∧
      (segs = [] ∨ total + (segs.map (fun s => s.2)).sum ≤ MAX_TOTAL_FRAMES) ∧
      2 * segs.length = lines.length
  | [], total, segs => by
    intro h
    simp [parseLoop] at h
    subst h
    simp
  | [p], total, segs => by
    intro h
    simp [parseLoop] at h
  | p :: fLine :: rest, total, segs => by
    intro h
    rw [parseLoop] at h
    split at h
    · cases h
    · rename_i frames hint
      split at h
      · cases h
      · rename_i hrange
        split at h
        · cases h
        · rename_i htot
          split at h
          · cases h
          · rename_i segs2 hrec
            injection h with h2
            subst h2
            obtain ⟨hb, hsum, hlen⟩ := parseLoop_sound rest (total + frames) segs2 hrec
            push_neg at hrange
            refine ⟨?_, Or.inr ?_, ?_⟩
            · intro s hs
              rcases List.mem_cons.mp hs with rfl | hs
              · exact ⟨by omega, hrange.2⟩
              · exact hb s hs
            · rcases hsum with rfl | hsum
              · simp
                omega
              · simp only [List.map_cons, List.sum_cons]
                omega
            · simp only [List.length_cons]
              omega

/-- C2: every request the multi-prompt parser accepts is valid — a
nonempty list of at most 50 segments, every segment frame count within
[2, 125], and a total of at most 10000 — so a request with a total over
10000 or any frame count outside [2, 125] is rejected (the parser
returns None, the spec's ValidationError), and for a rejected message
the render client is invoked zero times: the orchestrator is never
constructed. -/
theorem parse_multi_prompt_validates (text : String) :
    (∀ segs, parse_multi_prompt_message text = some segs →
      segs ≠ [] ∧ segs.length ≤ 50 ∧
      (∀ s ∈ segs, 2 ≤ s.2 ∧ s.2 ≤ MAX_FRAMES_PER_SEGMENT) ∧
      (segs.map (fun s => s.2)).sum ≤ MAX_TOTAL_FRAMES) ∧
    (parse_multi_prompt_message text = none → renderCallsForMessage text = 0) := by
  constructor
  · intro segs h
    unfold parse_multi_prompt_message checkAndParse at h
    split at h
    · cases h
    · next hcond =>
      push_neg at hcond
      obtain ⟨heven, hnz, hle⟩ := hcond
      obtain ⟨hb, hsum, hlen⟩ := parseLoop_sound _ 0 segs h
      have hne : segs ≠ [] := by
        intro hemp
        apply hnz
        rw [← hlen, hemp]
        rfl
      refine ⟨hne, by omega, hb, ?_⟩
      rcases hsum with hemp | hs
      · exact absurd hemp hne
      · simpa using hs
  · intro h
    simp [renderCallsForMessage, h]

/-- C2 (witness): the validation theorem on an accepted two-line message
and on a rejected one (frame count 1 is below the minimum). -/
theorem parse_multi_prompt_validates_witness :
    (∀ s ∈ [(("hello" : String), (10 : Int))],
      2 ≤ s.2 ∧ s.2 ≤ MAX_FRAMES_PER_SEGMENT) ∧
    renderCallsForMessage "bad\n1" = 0 := by
  constructor
  · exact ((parse_multi_prompt_validates "hello\n10").1
      [("hello", 10)] (by decide)).2.2.1
  · exact (parse_multi_prompt_validates "bad\n1").2 (by decide)

end MediaBot
